/-
Verification of the lake-monitoring dashboard core logic.

The development shallowly embeds the decision-level logic of the three
application scripts (app.py, app2.py, app3.py): the area-of-interest
resolution (get_custom_geometry in app2.py and app3.py), the image-collection
query builder (load_sentinel_collection), the index-computation pipeline
(normalize, add_fai_mci_turbidity), and the threshold evaluation loop inside
render_sidebar_metrics.

External collaborators are modelled at their interface: a raster image is a
list of named bands carrying one rational value each (the index formulas are
elementwise and uniform across pixels, so a single pixel represents the
raster); the remote image-collection service is represented by the pure query
specification the code constructs for it; the geometry constructor of the
remote-imaging client library is modelled as a structural GeoJSON check;
Python exceptions are modelled with Except, a caught exception corresponding
to a handled error value and an uncaught one to an error escaping the
function.
-/
import Mathlib

namespace LakeDashboard

/-! ## JSON values and Python-style access

A small model of the JSON documents produced by the standard-library parser.
The parse step itself is external; resolver inputs carry the parse outcome as
an optional value, with none standing for a parse exception. -/

inductive JVal where
  | jnum (q : ℚ)
  | jstr (s : String)
  | jbool (b : Bool)
  | jnull
  | jarr (xs : List JVal)
  | jobj (fields : List (String × JVal))

/-- Python exceptions that the AOI-resolution code can raise internally. -/
inductive PyErr where
  | typeError
  | keyError
  | indexError
  | attributeError
  | eeError
deriving DecidableEq

def jlookup (fields : List (String × JVal)) (k : String) : Option JVal :=
  (fields.find? (fun p => p.1 == k)).map Prod.snd

/-- Substring test, modelling the Python membership operator on strings. -/
def strContains (s pat : String) : Bool :=
  (List.range (s.length + 1)).any (fun i => pat.isPrefixOf (s.drop i))

/-- Model of the Python membership operator: key lookup on a dict, element
equality on a list, substring test on a string; a type error otherwise. -/
def pyIn (key : String) : JVal → Except PyErr Bool
  | .jobj fields => .ok (fields.any (fun p => p.1 == key))
  | .jarr xs => .ok (xs.any (fun v => match v with | .jstr s => s == key | _ => false))
  | .jstr s => .ok (strContains s key)
  | _ => .error .typeError

inductive PyKey where
  | pstr (s : String)
  | pint (n : ℕ)

/-- Model of Python subscripting: dict key access (raising on a missing key),
list indexing (raising when out of range), string indexing; a type error on
any other combination. -/
def pyGet : JVal → PyKey → Except PyErr JVal
  | .jobj fields, .pstr k =>
    match jlookup fields k with
    | some v => .ok v
    | none => .error .keyError
  | .jobj _, .pint _ => .error .keyError
  | .jarr xs, .pint i =>
    match xs.get? i with
    | some v => .ok v
    | none => .error .indexError
  | .jstr s, .pint i =>
    match s.toList.get? i with
    | some c => .ok (.jstr (String.mk [c]))
    | none => .error .indexError
  | _, _ => .error .typeError

/-! ## Geometry -/

/-- Geometries the remote-imaging client library constructs from GeoJSON.
Coordinates are WGS84 degrees, modelled as exact rationals. -/
inductive EEGeometry where
  | point (p : ℚ × ℚ)
  | lineString (ps : List (ℚ × ℚ))
  | polygon (rings : List (List (ℚ × ℚ)))
deriving DecidableEq

def asPosition : JVal → Option (ℚ × ℚ)
  | .jarr [.jnum x, .jnum y] => some (x, y)
  | _ => none

def asRing : JVal → Option (List (ℚ × ℚ))
  | .jarr xs => xs.mapM asPosition
  | _ => none

/-- Model of the client-library geometry constructor applied to a GeoJSON
value: it accepts an object with a recognized type tag and correctly nested
numeric coordinates (two-dimensional positions in this model) and raises on
any other structure. It performs no ring-closure check and no minimum
vertex-count check. -/
def eeGeometryOfJson : JVal → Except PyErr EEGeometry
  | .jobj fields =>
    match jlookup fields "type", jlookup fields "coordinates" with
    | some (.jstr t), some coords =>
      if t = "Point" then
        match asPosition coords with
        | some p => .ok (.point p)
        | none => .error .eeError
      else if t = "LineString" then
        match asRing coords with
        | some ps => .ok (.lineString ps)
        | none => .error .eeError
      else if t = "Polygon" then
        match coords with
        | .jarr rs =>
          match rs.mapM asRing with
          | some rings => .ok (.polygon rings)
          | none => .error .eeError
        | _ => .error .eeError
      else .error .eeError
    | _, _ => .error .eeError
  | _ => .error .eeError

/-- The built-in default lake boundary ring (Bellandur Lake sample), exactly
as listed in get_default_geometry: 22 coordinate pairs, the last repeating
the first. -/
def default_ring : List (ℚ × ℚ) := [
  (77.6392446351248, 12.921051012051585),
  (77.63899787189543, 12.920078493132383),
  (77.63889435291664, 12.919004787930328),
  (77.63891849279777, 12.918905443959652),
  (77.63897481918708, 12.918868843539448),
  (77.64090064525978, 12.918105462124162),
  (77.64099720478431, 12.918168205890122),
  (77.64158729076759, 12.918732899074577),
  (77.6439254160206, 12.921726115590571),
  (77.64401392891808, 12.921745722734912),
  (77.64406891420289, 12.92177317273437),
  (77.64409573629304, 12.921830687009194),
  (77.64408836311765, 12.921905261527495),
  (77.64500031418271, 12.92281503075012),
  (77.64506468719907, 12.92293528735337),
  (77.64503786510892, 12.923029401176393),
  (77.64451751656003, 12.923834595767756),
  (77.64441559261746, 12.923892109567786),
  (77.64130959457822, 12.923060772442854),
  (77.64042983002133, 12.923322199510041),
  (77.64032254166074, 12.923311742432603),
  (77.6392446351248, 12.921051012051585)]

/-- get_default_geometry from app2.py and app3.py. -/
def get_default_geometry : EEGeometry := .polygon [default_ring]

/-! ## AOI resolution (app2.py) -/

/-- Sidebar messages shown by the resolver (error and info banners). -/
inductive AoiMsg where
  | errorMsg
  | infoMsg
deriving DecidableEq

/-- The geometry-extraction step of get_custom_geometry in app2.py: a
feature collection yields its first feature's geometry, an object with a
geometry key yields that value, anything else is taken as a bare geometry.
Each access can raise. -/
def extract_geom (gj : JVal) : Except PyErr JVal := do
  if (← pyIn "features" gj) then
    pyGet (← pyGet (← pyGet gj (.pstr "features")) (.pint 0)) (.pstr "geometry")
  else if (← pyIn "geometry" gj) then
    pyGet gj (.pstr "geometry")
  else
    pure gj

/-- Extraction followed by geometry construction, the body of the try block
in get_custom_geometry of app2.py. -/
def parse_custom_geojson (v : JVal) : Except PyErr EEGeometry := do
  eeGeometryOfJson (← extract_geom v)

/-- The resolver inputs of app2.py: default boundary chosen, custom GeoJSON
chosen with empty text, or custom GeoJSON text with its parse outcome
(none when the standard-library parser raised). -/
inductive AOIInput where
  | defaultLake
  | customEmpty
  | customText (parsed : Option JVal)

/-- get_custom_geometry from app2.py. Every exception raised while parsing,
extracting, or constructing the geometry is caught by the try block, which
shows a sidebar error and returns the default geometry; the function is
total and never lets an exception escape. -/
def get_custom_geometry : AOIInput → EEGeometry × Option AoiMsg
  | .defaultLake => (get_default_geometry, none)
  | .customEmpty => (get_default_geometry, some .infoMsg)
  | .customText none => (get_default_geometry, some .errorMsg)
  | .customText (some v) =>
    match parse_custom_geojson v with
    | .ok g => (g, none)
    | .error _ => (get_default_geometry, some .errorMsg)

/-- The malformed-input predicate for app2.py: the text failed to parse, or
the parsed document fails extraction or geometry construction. -/
def customParseFails : Option JVal → Bool
  | none => true
  | some v =>
    match parse_custom_geojson v with
    | .ok _ => false
    | .error _ => true

/-! ## AOI resolution (app3.py) -/

/-- Transport failures of the saved-polygon catalog lookup. -/
inductive TransportFault where
  | unauthorized
  | unreachable
  | malformedResponse
deriving DecidableEq

/-- Outcome of get_polygon_from_api: an exception from the HTTP request
(requests.get, raise_for_status, or response decoding), a geometry for the
selected polygon, or none selected. -/
inductive SavedLookup where
  | fault (f : TransportFault)
  | selected (g : EEGeometry)
  | noneSelected

/-- The geometry-extraction step of get_custom_geometry in app3.py: the
first feature's geometry when a features key is present, otherwise the
geometry key with the document itself as dict-get default; a non-dict in the
else branch raises an attribute error (no dict-get method). -/
def extract_geom3 (gj : JVal) : Except PyErr JVal := do
  if (← pyIn "features" gj) then
    pyGet (← pyGet (← pyGet gj (.pstr "features")) (.pint 0)) (.pstr "geometry")
  else
    match gj with
    | .jobj fields => pure ((jlookup fields "geometry").getD gj)
    | _ => .error .attributeError

def parse_custom_geojson3 (v : JVal) : Except PyErr EEGeometry := do
  eeGeometryOfJson (← extract_geom3 v)

/-- The resolver inputs of app3.py: the three boundary sources, with the
saved-polygon source carrying whether an API key was entered and the lookup
outcome. -/
inductive AOIInput3 where
  | defaultLake
  | customEmpty
  | customText (parsed : Option JVal)
  | savedPolygon (appidGiven : Bool) (lookup : SavedLookup)

/-- get_custom_geometry from app3.py. The custom-GeoJSON branch catches all
exceptions (bare except) and falls back to the default with an error banner.
The saved-polygon branch calls get_polygon_from_api with no surrounding
try block, so an exception raised by the HTTP lookup escapes the resolver:
the Except error value models that uncaught exception. -/
def get_custom_geometry3 : AOIInput3 → Except TransportFault (EEGeometry × Option AoiMsg)
  | .defaultLake => .ok (get_default_geometry, none)
  | .customEmpty => .ok (get_default_geometry, none)
  | .customText none => .ok (get_default_geometry, some .errorMsg)
  | .customText (some v) =>
    match parse_custom_geojson3 v with
    | .ok g => .ok (g, none)
    | .error _ => .ok (get_default_geometry, some .errorMsg)
  | .savedPolygon false _ => .ok (get_default_geometry, none)
  | .savedPolygon true (.fault f) => .error f
  | .savedPolygon true (.selected g) => .ok (g, none)
  | .savedPolygon true .noneSelected => .ok (get_default_geometry, some .infoMsg)

/-! ## Query builder -/

/-- Calendar date, as built by the client library from year, month, day. -/
structure EEDate where
  year : ℕ
  month : ℕ
  day : ℕ
deriving DecidableEq

/-- The pure query specification that load_sentinel_collection hands to the
remote image-collection service: collection id, spatial bound, date window,
and metadata filter (property strictly less than a bound). -/
structure QuerySpec where
  collectionId : String
  bounds : EEGeometry
  startDate : EEDate
  endDate : EEDate
  cloudProperty : String
  cloudMax : ℚ

/-- load_sentinel_collection from app2.py and app3.py: Sentinel-2 collection
bounded by the AOI, dated from January 1 of the start year to December 31 of
the end year, with the cloudy-pixel-percentage filter bound fixed at 10. -/
def load_sentinel_collection (aoi : EEGeometry) (start_year end_year : ℕ) : QuerySpec :=
  { collectionId := "COPERNICUS/S2"
    bounds := aoi
    startDate := { year := start_year, month := 1, day := 1 }
    endDate := { year := end_year, month := 12, day := 31 }
    cloudProperty := "CLOUDY_PIXEL_PERCENTAGE"
    cloudMax := 10 }

/-- Semantics of the metadata filter in the query: an image with the given
cloud percentage is admitted exactly when the percentage is strictly below
the configured bound. -/
def cloudFilterAdmits (q : QuerySpec) (cloudPct : ℚ) : Bool :=
  decide (cloudPct < q.cloudMax)

/-! ## Raster model and the index pipeline -/

/-- A raster image: named bands, each carrying the reflectance value of the
representative pixel. The index formulas are elementwise and uniform, so one
pixel per band captures them. -/
abbrev Raster : Type := List (String × ℚ)

/-- Band selection by name, first match first: selecting a band keeps the
value of the earliest band with that name. -/
def select (image : Raster) (b : String) : ℚ :=
  match image with
  | [] => 0
  | p :: rest => if p.1 = b then p.2 else select rest b

/-- Model of adding derived bands to an image: all bands of the base image
are kept unchanged, and the new bands are appended; a new band whose name is
already present does not shadow the existing band (selection by name keeps
returning the original). -/
def addBands (image : Raster) (new : Raster) : Raster :=
  image ++ new.filter (fun p => decide (p.1 ∉ image.map Prod.fst))

/-- The distinct band names of an image. -/
def bandNames (image : Raster) : List String :=
  (image.map Prod.fst).dedup

/-- Restriction of an image to a list of band names (selection by name). -/
def selectBands (names : List String) (image : Raster) : Raster :=
  names.map (fun n => (n, select image n))

/-- normalize from app2.py and app3.py: divide every band by 10000, mapping
raw reflectance to the 0-1 range. -/
def normalize (image : Raster) : Raster :=
  image.map (fun p => (p.1, p.2 / 10000))

/-- add_fai_mci_turbidity from app2.py and app3.py: normalize the image,
compute the floating-algae index from bands B4, B8, B11, the maximum
chlorophyll index from bands B4, B5, B6, and the turbidity proxy as the
ratio of normalized B11 to normalized B4, and add the three results as
bands FAI, MCI, Turbidity to the original image. -/
def add_fai_mci_turbidity (image : Raster) : Raster :=
  let img := normalize image
  let red := select img "B4"
  let nir := select img "B8"
  let swir := select img "B11"
  let baseline := red + (swir - red) * (842 - 665) / (1610 - 665)
  let fai := nir - baseline
  let mci := select img "B5" - select img "B4"
              - (select img "B6" - select img "B4") * ((705 - 665) / (740 - 665))
  let turb := select img "B11" / select img "B4"
  addBands image [("FAI", fai), ("MCI", mci), ("Turbidity", turb)]

/-- The raster of the worked example: raw bands B4, B8, B11, B5, B6. -/
def sampleImage : Raster :=
  [("B4", 2000), ("B8", 4000), ("B11", 3000), ("B5", 2500), ("B6", 3200)]

/-! ## Threshold evaluation -/

/-- The reference alert thresholds from main in app2.py and app3.py. -/
def reference_thresholds : List (String × ℚ) :=
  [("FAI", 0.05), ("MCI", 0.02), ("Turbidity", 1.8)]

def lookupThreshold (thresholds : List (String × ℚ)) (k : String) : Option ℚ :=
  (thresholds.find? (fun p => p.1 == k)).map Prod.snd

/-- The missing-threshold configuration defect: in the Python source a
missing dictionary entry raises a key error naming the index. -/
inductive EvalError where
  | missingThreshold (index : String)
deriving DecidableEq

/-- The alert-collection loop of render_sidebar_metrics: walk the aggregate
results in order, look up each threshold (raising when absent), and collect
the names whose value strictly exceeds the threshold, preserving order. -/
def evaluateAlerts : List (String × ℚ) → List (String × ℚ) → Except EvalError (List String)
  | [], _ => .ok []
  | (k, v) :: rest, thresholds =>
    match lookupThreshold thresholds k with
    | none => .error (.missingThreshold k)
    | some t =>
      match evaluateAlerts rest thresholds with
      | .error e => .error e
      | .ok tail => .ok (if t < v then k :: tail else tail)

/-- The final sidebar verdict: an alert banner when any index exceeded, the
all-safe banner otherwise. -/
inductive Verdict where
  | alertMessage
  | safeMessage
deriving DecidableEq

/-- The spatial means drawn for the selected layers, pairing each selected
index name with its mean value over the AOI (the reduction itself is
performed by the remote service and enters as the mean function). -/
def aggregates (selected : List String) (mean : String → ℚ) : List (String × ℚ) :=
  selected.map (fun k => (k, mean k))

/-- render_sidebar_metrics from app2.py and app3.py: evaluate alerts over
the selected layers only and report the verdict. -/
def render_sidebar_metrics (selected : List String) (mean : String → ℚ)
    (thresholds : List (String × ℚ)) : Except EvalError (List String × Verdict) := do
  let alerts ← evaluateAlerts (aggregates selected mean) thresholds
  pure (alerts, if alerts.isEmpty then .safeMessage else .alertMessage)

/-- The fixed layer list of main. -/
def layer_list : List String := ["FAI", "MCI", "Turbidity"]

/-- The layer selection of main: the layers whose sidebar checkbox is on,
in the fixed layer order. -/
def selectLayers (checkbox : String → Bool) : List String :=
  layer_list.filter checkbox

/-- The aggregate result of the worked threshold example. -/
def sampleAggregate : List (String × ℚ) :=
  [("FAI", 0.06), ("MCI", 0.01), ("Turbidity", 1.8)]

/-- A structurally well-formed polygon GeoJSON whose single ring is open and
has only three points. -/
def open_ring_json : JVal :=
  .jobj [("type", .jstr "Polygon"),
         ("coordinates", .jarr [.jarr [.jarr [.jnum 0, .jnum 0],
                                       .jarr [.jnum 1, .jnum 0],
                                       .jarr [.jnum 0, .jnum 1]]])]

/-- Whether an Except value is a success. -/
def isOkE {ε α : Type} : Except ε α → Bool
  | .ok _ => true
  | .error _ => false

/-! ## Helper lemmas -/

lemma select_append_of_mem (image rest : Raster) (b : String)
    (h : b ∈ image.map Prod.fst) :
    select (image ++ rest) b = select image b := by
  induction image with
  | nil => simp at h
  | cons p tl ih =>
    simp only [List.cons_append, select]
    by_cases hpb : p.1 = b
    · simp [hpb]
    · simp only [if_neg hpb]
      apply ih
      simp only [List.map_cons, List.mem_cons] at h
      rcases h with h | h
      · exact absurd h.symm hpb
      · exact h

lemma select_append_of_not_mem (image rest : Raster) (b : String)
    (h : b ∉ image.map Prod.fst) :
    select (image ++ rest) b = select rest b := by
  induction image with
  | nil => rfl
  | cons p tl ih =>
    simp only [List.map_cons, List.mem_cons, not_or] at h
    simp only [List.cons_append, select]
    rw [if_neg (fun hh => h.1 hh.symm)]
    exact ih h.2

lemma select_normalize (image : Raster) (b : String) :
    select (normalize image) b = select image b / 10000 := by
  induction image with
  | nil => simp [normalize, select]
  | cons p tl ih =>
    simp only [normalize, List.map_cons, select]
    by_cases hpb : p.1 = b
    · simp [hpb]
    · simpa [if_neg hpb, normalize] using ih

lemma mem_map_fst_addBands (image new : Raster) (k : String) :
    k ∈ (addBands image new).map Prod.fst ↔
      k ∈ image.map Prod.fst ∨ k ∈ new.map Prod.fst := by
  simp only [addBands, List.map_append, List.mem_append, List.mem_map,
    List.mem_filter, decide_eq_true_eq]
  constructor
  · rintro (h | ⟨x, ⟨hx, _⟩, hk⟩)
    · exact Or.inl h
    · exact Or.inr ⟨x, hx, hk⟩
  · rintro (h | ⟨x, hx, hk⟩)
    · exact Or.inl h
    · by_cases hmem : ∃ a ∈ image, a.1 = k
      · exact Or.inl hmem
      · exact Or.inr ⟨x, ⟨hx, by rw [hk]; exact hmem⟩, hk⟩

lemma bandNames_addBands_toFinset (image new : Raster) :
    (bandNames (addBands image new)).toFinset
      = (bandNames image).toFinset ∪ (new.map Prod.fst).toFinset := by
  ext a
  simp only [bandNames, List.mem_toFinset, List.mem_dedup, Finset.mem_union,
    mem_map_fst_addBands]

lemma addBands_of_subset (base new : Raster)
    (h : ∀ p ∈ new, p.1 ∈ base.map Prod.fst) :
    addBands base new = base := by
  have hf : new.filter (fun p => decide (p.1 ∉ base.map Prod.fst)) = [] := by
    apply List.filter_eq_nil_iff.2
    intro p hp
    simp [h p hp]
  simp only [addBands]
  rw [hf, List.append_nil]

lemma selectBands_congr (names : List String) (a b : Raster)
    (h : ∀ n ∈ names, select a n = select b n) :
    selectBands names a = selectBands names b := by
  induction names with
  | nil => rfl
  | cons n tl ih =>
    simp only [selectBands, List.map_cons, List.cons.injEq]
    constructor
    · exact congrArg _ (h n (List.mem_cons_self n tl))
    · exact ih (fun m hm => h m (List.mem_cons_of_mem n hm))

/-- Unfolding of add_fai_mci_turbidity with its let bindings resolved. -/
lemma add_fai_mci_turbidity_eq (image : Raster) :
    add_fai_mci_turbidity image = addBands image
      [("FAI", select (normalize image) "B8"
          - (select (normalize image) "B4"
             + (select (normalize image) "B11" - select (normalize image) "B4")
               * (842 - 665) / (1610 - 665))),
       ("MCI", select (normalize image) "B5" - select (normalize image) "B4"
          - (select (normalize image) "B6" - select (normalize image) "B4")
            * ((705 - 665) / (740 - 665))),
       ("Turbidity", select (normalize image) "B11" / select (normalize image) "B4")] :=
  rfl

lemma evaluateAlerts_ok (agg thresholds : List (String × ℚ))
    (h : ∀ p ∈ agg, (lookupThreshold thresholds p.1).isSome = true) :
    evaluateAlerts agg thresholds =
      .ok ((agg.filter
        (fun p => decide ((lookupThreshold thresholds p.1).getD 0 < p.2))).map Prod.fst) := by
  induction agg with
  | nil => rfl
  | cons p tl ih =>
    obtain ⟨k, v⟩ := p
    have hk : (lookupThreshold thresholds k).isSome = true :=
      h (k, v) (List.mem_cons_self _ _)
    obtain ⟨t, ht⟩ := Option.isSome_iff_exists.1 hk
    have htl := ih (fun q hq => h q (List.mem_cons_of_mem _ hq))
    simp only [evaluateAlerts, ht, htl, List.filter_cons, Option.getD_some]
    by_cases hlt : t < v
    · simp [hlt]
    · simp [hlt]

lemma evaluateAlerts_error_iff (agg thresholds : List (String × ℚ)) :
    isOkE (evaluateAlerts agg thresholds) = false ↔
      ∃ p ∈ agg, lookupThreshold thresholds p.1 = none := by
  induction agg with
  | nil => simp [evaluateAlerts, isOkE]
  | cons p tl ih =>
    obtain ⟨k, v⟩ := p
    simp only [evaluateAlerts]
    cases hk : lookupThreshold thresholds k with
    | none =>
      simp only [isOkE]
      constructor
      · intro _
        exact ⟨(k, v), List.mem_cons_self _ _, hk⟩
      · intro _
        trivial
    | some t =>
      cases htl : evaluateAlerts tl thresholds with
      | error e =>
        simp only [isOkE]
        constructor
        · intro _
          have : isOkE (evaluateAlerts tl thresholds) = false := by
            rw [htl]; rfl
          obtain ⟨q, hq, hqe⟩ := ih.1 this
          exact ⟨q, List.mem_cons_of_mem _ hq, hqe⟩
        · intro _
          trivial
      | ok tail =>
        simp only [isOkE]
        constructor
        · intro hfalse
          exact absurd hfalse (by simp)
        · rintro ⟨q, hq, hqe⟩
          rcases List.mem_cons.1 hq with rfl | hq
          · rw [hk] at hqe
            exact absurd hqe (by simp)
          · have : isOkE (evaluateAlerts tl thresholds) = false :=
              ih.2 ⟨q, hq, hqe⟩
            rw [htl] at this
            exact absurd this (by simp [isOkE])

lemma evaluateAlerts_error_elim (agg thresholds : List (String × ℚ)) (k : String)
    (h : evaluateAlerts agg thresholds = .error (.missingThreshold k)) :
    lookupThreshold thresholds k = none ∧ k ∈ agg.map Prod.fst := by
  induction agg with
  | nil => exact absurd h (by simp [evaluateAlerts])
  | cons p tl ih =>
    obtain ⟨k', v⟩ := p
    simp only [evaluateAlerts] at h
    cases hk' : lookupThreshold thresholds k' with
    | none =>
      rw [hk'] at h
      have hkk : k' = k := by
        have := Except.error.inj h
        exact EvalError.missingThreshold.inj this
      subst hkk
      exact ⟨hk', by simp⟩
    | some t =>
      rw [hk'] at h
      cases htl : evaluateAlerts tl thresholds with
      | error e =>
        rw [htl] at h
        have he : e = .missingThreshold k := Except.error.inj h
        subst he
        obtain ⟨h1, h2⟩ := ih htl
        exact ⟨h1, by simp [h2]⟩
      | ok tail =>
        rw [htl] at h
        exact absurd h (by simp)

/-! ## Claim theorems -/

/-- C1: the index pipeline first normalizes every band input to the 0-1
range by dividing the raw values by 10000 and then applies the fixed
band-algebra formulas; on the raw-band image B4=2000, B8=4000, B11=3000,
B5=2500, B6=3200 it produces
FAI = 0.4 - (0.2 + (0.3-0.2)*(842-665)/(1610-665)),
MCI = 0.25 - 0.2 - (0.32-0.2)*(40/75) = -0.014, and
Turbidity = 0.3/0.2 = 1.5. -/
theorem index_pipeline_normalized_formulas :
    (∀ image : Raster,
      "FAI" ∉ image.map Prod.fst → "MCI" ∉ image.map Prod.fst →
      "Turbidity" ∉ image.map Prod.fst →
      select (add_fai_mci_turbidity image) "FAI"
          = select image "B8" / 10000
            - (select image "B4" / 10000
               + (select image "B11" / 10000 - select image "B4" / 10000)
                 * (842 - 665) / (1610 - 665)) ∧
      select (add_fai_mci_turbidity image) "MCI"
          = select image "B5" / 10000 - select image "B4" / 10000
            - (select image "B6" / 10000 - select image "B4" / 10000)
              * ((705 - 665) / (740 - 665)) ∧
      select (add_fai_mci_turbidity image) "Turbidity"
          = (select image "B11" / 10000) / (select image "B4" / 10000)) ∧
    select (add_fai_mci_turbidity sampleImage) "FAI"
        = 0.4 - (0.2 + (0.3 - 0.2) * (842 - 665) / (1610 - 665)) ∧
    select (add_fai_mci_turbidity sampleImage) "MCI"
        = 0.25 - 0.2 - (0.32 - 0.2) * (40 / 75) ∧
    select (add_fai_mci_turbidity sampleImage) "MCI" = -0.014 ∧
    select (add_fai_mci_turbidity sampleImage) "Turbidity" = 0.3 / 0.2 ∧
    select (add_fai_mci_turbidity sampleImage) "Turbidity" = 1.5 := by
  have hgen : ∀ image : Raster,
      "FAI" ∉ image.map Prod.fst → "MCI" ∉ image.map Prod.fst →
      "Turbidity" ∉ image.map Prod.fst →
      select (add_fai_mci_turbidity image) "FAI"
          = select image "B8" / 10000
            - (select image "B4" / 10000
               + (select image "B11" / 10000 - select image "B4" / 10000)
                 * (842 - 665) / (1610 - 665)) ∧
      select (add_fai_mci_turbidity image) "MCI"
          = select image "B5" / 10000 - select image "B4" / 10000
            - (select image "B6" / 10000 - select image "B4" / 10000)
              * ((705 - 665) / (740 - 665)) ∧
      select (add_fai_mci_turbidity image) "Turbidity"
          = (select image "B11" / 10000) / (select image "B4" / 10000) := by
    intro image hF hM hT
    refine ⟨?_, ?_, ?_⟩
    · rw [add_fai_mci_turbidity_eq]
      simp only [addBands]
      rw [select_append_of_not_mem _ _ _ hF]
      simp [select, hF, hM, hT, select_normalize]
    · rw [add_fai_mci_turbidity_eq]
      simp only [addBands]
      rw [select_append_of_not_mem _ _ _ hM]
      simp [select, hF, hM, hT, select_normalize]
    · rw [add_fai_mci_turbidity_eq]
      simp only [addBands]
      rw [select_append_of_not_mem _ _ _ hT]
      simp [select, hF, hM, hT, select_normalize]
  obtain ⟨h1, h2, h3⟩ := hgen sampleImage (by decide) (by decide) (by decide)
  have hB4 : select sampleImage "B4" = 2000 := rfl
  have hB5 : select sampleImage "B5" = 2500 := rfl
  have hB6 : select sampleImage "B6" = 3200 := rfl
  have hB8 : select sampleImage "B8" = 4000 := rfl
  have hB11 : select sampleImage "B11" = 3000 := rfl
  simp only [hB4, hB5, hB6, hB8, hB11] at h1 h2 h3
  refine ⟨hgen, ?_, ?_, ?_, ?_, ?_⟩
  · rw [h1]; norm_num
  · rw [h2]; norm_num
  · rw [h2]; norm_num
  · rw [h3]; norm_num
  · rw [h3]; norm_num

/-- Witness for C1: the general formula statement applied to the concrete
sample image, whose band list has no derived band. -/
theorem index_pipeline_normalized_formulas_witness :
    ("FAI" ∉ sampleImage.map Prod.fst) ∧ ("MCI" ∉ sampleImage.map Prod.fst) ∧
    ("Turbidity" ∉ sampleImage.map Prod.fst) ∧
    (select (add_fai_mci_turbidity sampleImage) "FAI"
        = select sampleImage "B8" / 10000
          - (select sampleImage "B4" / 10000
             + (select sampleImage "B11" / 10000 - select sampleImage "B4" / 10000)
               * (842 - 665) / (1610 - 665)) ∧
     select (add_fai_mci_turbidity sampleImage) "MCI"
        = select sampleImage "B5" / 10000 - select sampleImage "B4" / 10000
          - (select sampleImage "B6" / 10000 - select sampleImage "B4" / 10000)
            * ((705 - 665) / (740 - 665)) ∧
     select (add_fai_mci_turbidity sampleImage) "Turbidity"
        = (select sampleImage "B11" / 10000) / (select sampleImage "B4" / 10000)) :=
  ⟨by decide, by decide, by decide,
   index_pipeline_normalized_formulas.1 sampleImage (by decide) (by decide) (by decide)⟩

/-- C2: for every AOI and year pair the query builder produces a window
starting January 1 of the start year and ending December 31 of the end year,
with a cloud filter admitting exactly the images whose cloud percentage is
strictly below the configured ceiling of 10; in particular years 2020-2024
give the dates 2020-01-01 and 2024-12-31. -/
theorem query_builder_window_and_cloud (aoi : EEGeometry) (sy ey : ℕ) (_h : sy ≤ ey) :
    (load_sentinel_collection aoi sy ey).startDate = ⟨sy, 1, 1⟩ ∧
    (load_sentinel_collection aoi sy ey).endDate = ⟨ey, 12, 31⟩ ∧
    (∀ c : ℚ, cloudFilterAdmits (load_sentinel_collection aoi sy ey) c = true ↔ c < 10) ∧
    (load_sentinel_collection aoi 2020 2024).startDate = ⟨2020, 1, 1⟩ ∧
    (load_sentinel_collection aoi 2020 2024).endDate = ⟨2024, 12, 31⟩ := by
  refine ⟨rfl, rfl, ?_, rfl, rfl⟩
  intro c
  simp [cloudFilterAdmits, load_sentinel_collection]

/-- Witness for C2 at the default AOI and the years 2020 and 2024. -/
theorem query_builder_window_and_cloud_witness :
    (2020 : ℕ) ≤ 2024 ∧
    ((load_sentinel_collection get_default_geometry 2020 2024).startDate = ⟨2020, 1, 1⟩ ∧
     (load_sentinel_collection get_default_geometry 2020 2024).endDate = ⟨2024, 12, 31⟩ ∧
     (∀ c : ℚ, cloudFilterAdmits (load_sentinel_collection get_default_geometry 2020 2024) c
        = true ↔ c < 10) ∧
     (load_sentinel_collection get_default_geometry 2020 2024).startDate = ⟨2020, 1, 1⟩ ∧
     (load_sentinel_collection get_default_geometry 2020 2024).endDate = ⟨2024, 12, 31⟩) :=
  ⟨by decide, query_builder_window_and_cloud get_default_geometry 2020 2024 (by decide)⟩

/-- C3: when every index of the aggregate result has a threshold entry, the
evaluator returns exactly the names whose value is strictly greater than the
threshold, in the input order (a filter of the input list). -/
theorem threshold_evaluator_strict_order (agg thresholds : List (String × ℚ))
    (h : ∀ p ∈ agg, (lookupThreshold thresholds p.1).isSome = true) :
    evaluateAlerts agg thresholds =
      .ok ((agg.filter
        (fun p => decide ((lookupThreshold thresholds p.1).getD 0 < p.2))).map Prod.fst) :=
  evaluateAlerts_ok agg thresholds h

/-- Witness for C3: on the aggregate FAI=0.06, MCI=0.01, Turbidity=1.8 with
the reference thresholds the alert set is exactly the one-element list FAI
(Turbidity equals its threshold and is excluded by the strict comparison). -/
theorem threshold_evaluator_strict_order_witness :
    (∀ p ∈ sampleAggregate, (lookupThreshold reference_thresholds p.1).isSome = true) ∧
    evaluateAlerts sampleAggregate reference_thresholds = .ok ["FAI"] := by
  refine ⟨by decide, ?_⟩
  rw [threshold_evaluator_strict_order sampleAggregate reference_thresholds (by decide)]
  refine congrArg Except.ok ?_
  have l1 : lookupThreshold reference_thresholds "FAI" = some 0.05 := rfl
  have l2 : lookupThreshold reference_thresholds "MCI" = some 0.02 := rfl
  have l3 : lookupThreshold reference_thresholds "Turbidity" = some 1.8 := rfl
  have c1 : decide ((0.05 : ℚ) < 0.06) = true := decide_eq_true (by norm_num)
  have c2 : decide ((0.02 : ℚ) < 0.01) = false := decide_eq_false (by norm_num)
  have c3 : decide ((1.8 : ℚ) < 1.8) = false := decide_eq_false (by norm_num)
  simp [sampleAggregate, List.filter, l1, l2, l3, c1, c2, c3]

/-- C7: the evaluator fails exactly when some index of the aggregate result
has no threshold entry, and the raised error names a missing index; for all
other inputs it succeeds. -/
theorem missing_threshold_fails_fast :
    ∀ agg thresholds : List (String × ℚ),
      (isOkE (evaluateAlerts agg thresholds) = false ↔
        ∃ p ∈ agg, lookupThreshold thresholds p.1 = none) ∧
      (∀ k, evaluateAlerts agg thresholds = .error (.missingThreshold k) →
        lookupThreshold thresholds k = none ∧ k ∈ agg.map Prod.fst) :=
  fun agg thresholds =>
    ⟨evaluateAlerts_error_iff agg thresholds,
     fun k h => evaluateAlerts_error_elim agg thresholds k h⟩

/-- Witness for C7: an aggregate containing FAI against an empty threshold
map fails with the missing-threshold error for FAI. -/
theorem missing_threshold_fails_fast_witness :
    isOkE (evaluateAlerts [("FAI", (1 : ℚ))] []) = false ∧
    lookupThreshold [] "FAI" = none ∧
    "FAI" ∈ ([("FAI", (1 : ℚ))].map Prod.fst) := by
  have h := missing_threshold_fails_fast [("FAI", (1 : ℚ))] []
  refine ⟨h.1.mpr ⟨("FAI", 1), by simp, rfl⟩, ?_, ?_⟩
  · exact (h.2 "FAI" rfl).1
  · exact (h.2 "FAI" rfl).2

/-- C10: alert evaluation runs only over the selected layers: the aggregate
list contains exactly the layers whose checkbox is on, every aggregated name
passes its checkbox, and with every layer deselected the summary is the
all-safe verdict with no alerts, whatever the mean values and thresholds. -/
theorem alerts_only_selected_layers :
    (∀ (checkbox : String → Bool) (mean : String → ℚ),
        (aggregates (selectLayers checkbox) mean).map Prod.fst = selectLayers checkbox) ∧
    (∀ checkbox : String → Bool, (selectLayers checkbox).all checkbox = true) ∧
    (∀ (mean : String → ℚ) (thresholds : List (String × ℚ)),
        render_sidebar_metrics (selectLayers (fun _ => false)) mean thresholds
          = .ok ([], .safeMessage)) := by
  refine ⟨?_, ?_, ?_⟩
  · intro checkbox mean
    have hl : ∀ l : List String, (aggregates l mean).map Prod.fst = l := by
      intro l
      induction l with
      | nil => rfl
      | cons a tl ih => simpa [aggregates] using ih
    exact hl _
  · intro checkbox
    exact List.all_eq_true.2 (fun x hx => (List.mem_filter.1 hx).2)
  · intro mean thresholds
    rfl

/-- C4: for every malformed custom-GeoJSON input (the text failed to parse,
or extraction or geometry construction raised), the resolver returns the
built-in default polygon together with the error banner; the default ring
lists 22 coordinates, starts at the stated first vertex, and closes on it.
The resolver is a total function, so no exception escapes its boundary. -/
theorem aoi_malformed_falls_back :
    (∀ parsed : Option JVal, customParseFails parsed = true →
        get_custom_geometry (.customText parsed)
          = (get_default_geometry, some .errorMsg)) ∧
    default_ring.length = 22 ∧
    default_ring.head? = some (77.6392446351248, 12.921051012051585) ∧
    default_ring.getLast? = some (77.6392446351248, 12.921051012051585) := by
  refine ⟨?_, by decide, rfl, rfl⟩
  intro parsed hfail
  cases parsed with
  | none => rfl
  | some v =>
    cases hp : parse_custom_geojson v with
    | ok g => simp [customParseFails, hp] at hfail
    | error e => simp [get_custom_geometry, hp]

/-- Witness for C4: a GeoJSON document that parses to a bare number is
structurally invalid and resolves to the default polygon with the error
banner. -/
theorem aoi_malformed_falls_back_witness :
    customParseFails (some (JVal.jnum 5)) = true ∧
    get_custom_geometry (.customText (some (JVal.jnum 5)))
      = (get_default_geometry, some .errorMsg) :=
  ⟨rfl, aoi_malformed_falls_back.1 (some (JVal.jnum 5)) rfl⟩

/-- C5 counterexample: a transport failure of the saved-polygon lookup
(unauthorized) escapes get_custom_geometry of app3.py as an uncaught
exception instead of resolving to the default geometry with a message. -/
theorem saved_polygon_fault_escapes :
    get_custom_geometry3 (.savedPolygon true (.fault .unauthorized))
      = .error .unauthorized ∧
    get_custom_geometry3 (.savedPolygon true (.fault .unauthorized))
      ≠ .ok (get_default_geometry, some .infoMsg) ∧
    get_custom_geometry3 (.savedPolygon true (.fault .unauthorized))
      ≠ .ok (get_default_geometry, some .errorMsg) := by
  refine ⟨rfl, ?_, ?_⟩ <;> simp [get_custom_geometry3]

/-- C5 amended: when no saved polygon is selected the resolver returns the
default geometry with the info banner, and a selected polygon is returned
as-is; but every transport failure of the lookup propagates out of the
resolver uncaught. -/
theorem saved_polygon_branch_behavior :
    (∀ f : TransportFault,
        get_custom_geometry3 (.savedPolygon true (.fault f)) = .error f) ∧
    get_custom_geometry3 (.savedPolygon true .noneSelected)
      = .ok (get_default_geometry, some .infoMsg) ∧
    (∀ g : EEGeometry,
        get_custom_geometry3 (.savedPolygon true (.selected g)) = .ok (g, none)) :=
  ⟨fun _ => rfl, rfl, fun _ => rfl⟩

/-- C6 counterexample: a structurally well-formed polygon whose single ring
is open and has only three points is accepted verbatim as the AOI by the
resolver, with no warning, no rejection, and no auto-closing. -/
theorem aoi_ring_checks_missing :
    get_custom_geometry (.customText (some open_ring_json))
      = (.polygon [[((0 : ℚ), (0 : ℚ)), (1, 0), (0, 1)]], none) ∧
    ([((0 : ℚ), (0 : ℚ)), (1, 0), (0, 1)] : List (ℚ × ℚ)).length = 3 ∧
    ([((0 : ℚ), (0 : ℚ)), (1, 0), (0, 1)] : List (ℚ × ℚ)).head?
      ≠ ([((0 : ℚ), (0 : ℚ)), (1, 0), (0, 1)] : List (ℚ × ℚ)).getLast? := by
  refine ⟨rfl, rfl, ?_⟩
  have hh : ([((0 : ℚ), (0 : ℚ)), (1, 0), (0, 1)] : List (ℚ × ℚ)).head?
      = some ((0 : ℚ), (0 : ℚ)) := rfl
  have hl : ([((0 : ℚ), (0 : ℚ)), (1, 0), (0, 1)] : List (ℚ × ℚ)).getLast?
      = some ((0 : ℚ), (1 : ℚ)) := rfl
  rw [hh, hl]
  intro h
  have h2 := congrArg Prod.snd (Option.some.inj h)
  norm_num at h2

/-- C6 amended: the resolver performs no ring-closure or vertex-count check
on user-supplied geometry: any input passing the structural GeoJSON check is
accepted unchanged as the AOI; only the built-in default ring is closed
(its 22 points end where they start, satisfying the four-point minimum). -/
theorem aoi_structural_acceptance :
    (∀ (v : JVal) (g : EEGeometry), parse_custom_geojson v = .ok g →
        get_custom_geometry (.customText (some v)) = (g, none)) ∧
    default_ring.head? = default_ring.getLast? ∧
    4 ≤ default_ring.length := by
  refine ⟨?_, rfl, by decide⟩
  intro v g hp
  simp [get_custom_geometry, hp]

/-- Witness for the C6 amended theorem at the open three-point ring. -/
theorem aoi_structural_acceptance_witness :
    parse_custom_geojson open_ring_json
      = .ok (.polygon [[((0 : ℚ), (0 : ℚ)), (1, 0), (0, 1)]]) ∧
    get_custom_geometry (.customText (some open_ring_json))
      = (.polygon [[((0 : ℚ), (0 : ℚ)), (1, 0), (0, 1)]], none) :=
  ⟨rfl, aoi_structural_acceptance.1 open_ring_json _ rfl⟩

/-- C8: the pipeline adds the derived bands without mutating originals: the
result restricted to the original band names is the original raster, and the
resulting band-name set is the union of the original names with FAI, MCI and
Turbidity. -/
theorem compute_indices_frame :
    ∀ image : Raster,
      selectBands (bandNames image) (add_fai_mci_turbidity image)
        = selectBands (bandNames image) image ∧
      (bandNames (add_fai_mci_turbidity image)).toFinset
        = (bandNames image).toFinset ∪ {"FAI", "MCI", "Turbidity"} := by
  intro image
  constructor
  · apply selectBands_congr
    intro n hn
    have hmem : n ∈ image.map Prod.fst := by
      simpa [bandNames, List.mem_dedup] using hn
    rw [add_fai_mci_turbidity_eq]
    simp only [addBands]
    exact select_append_of_mem _ _ _ hmem
  · rw [add_fai_mci_turbidity_eq, bandNames_addBands_toFinset]
    ext a
    simp

/-- C9: recomputing the indices on an image that already carries the derived
bands is the identity: the second application returns the first one's raster
unchanged, and in particular the derived-band values are identical. -/
theorem compute_indices_idempotent :
    ∀ image : Raster,
      add_fai_mci_turbidity (add_fai_mci_turbidity image) = add_fai_mci_turbidity image ∧
      select (add_fai_mci_turbidity (add_fai_mci_turbidity image)) "FAI"
        = select (add_fai_mci_turbidity image) "FAI" ∧
      select (add_fai_mci_turbidity (add_fai_mci_turbidity image)) "MCI"
        = select (add_fai_mci_turbidity image) "MCI" ∧
      select (add_fai_mci_turbidity (add_fai_mci_turbidity image)) "Turbidity"
        = select (add_fai_mci_turbidity image) "Turbidity" := by
  intro image
  have hmain : add_fai_mci_turbidity (add_fai_mci_turbidity image)
      = add_fai_mci_turbidity image := by
    conv_lhs => rw [add_fai_mci_turbidity_eq (add_fai_mci_turbidity image)]
    apply addBands_of_subset
    intro p hp
    rw [add_fai_mci_turbidity_eq image, mem_map_fst_addBands]
    right
    simp only [List.mem_cons, List.not_mem_nil, or_false] at hp
    rcases hp with rfl | rfl | rfl <;> simp
  exact ⟨hmain, by rw [hmain], by rw [hmain], by rw [hmain]⟩

end LakeDashboard
